import Mathlib

/-!
Verification of `intake/container/persist.py` (`PersistStore`).

The Python module is shallowly embedded: the persist-store state (the on-disk
`cat.yaml` index, the per-token artifact directories, the in-memory `_entries`
mirror) is an explicit Lean structure, and each method becomes a pure function
on that state.  Python values stored in `metadata` dictionaries are modelled by
the inductive `Val`; fallible methods return `Except`, with the error carrying
the state at the moment the exception is raised (Python exceptions leave all
mutations performed so far in place).

External collaborators (the `DataSource._yaml` serializer, `import_name`
followed by class instantiation, `make_path_posix`) are not part of the shown
source; they are modelled as deterministic functions or passed as parameters.
-/

/-- A Python value as stored in a `metadata` dictionary: `None`, a number,
a string, a list or a dict. -/
inductive Val where
  | vnone : Val
  | vint  : Int → Val
  | vstr  : String → Val
  | vlist : List Val → Val
  | vdict : List (String × Val) → Val

/-- Python truthiness, as used by `if metadata.get('ttl', None):`. -/
def Val.truthy : Val → Bool
  | .vnone => false
  | .vint n => n != 0
  | .vstr s => !s.isEmpty
  | .vlist l => !l.isEmpty
  | .vdict d => !d.isEmpty

/-- `d[k]` lookup in a string-keyed Python dict (association list). -/
def alookup {α : Type} (m : List (String × α)) (k : String) : Option α :=
  (m.find? (fun p => p.1 == k)).map (·.2)

/-- `d[k] = v` assignment in a Python dict: replace in place if the key is
present, append otherwise (insertion order preserved). -/
def aset {α : Type} : List (String × α) → String → α → List (String × α)
  | [], k, v => [(k, v)]
  | (k', v') :: t, k, v =>
      if k' == k then (k', v) :: t else (k', v') :: aset t k v

/-- `del d[k]` in a Python dict: drop the binding for `k`. -/
def adel {α : Type} : List (String × α) → String → List (String × α)
  | [], _ => []
  | (k', v') :: t, k => if k' == k then t else (k', v') :: adel t k

/-- `m.get(k)` on a metadata dict. -/
def dget (m : List (String × Val)) (k : String) : Option Val := alookup m k

/-- `m.get(k, default)` on a metadata dict. -/
def dgetD (m : List (String × Val)) (k : String) (d : Val) : Val :=
  (dget m k).getD d

/-- The record `source._yaml()['sources'][source.name]` stored per token in
the index file: driver spec, constructor args, metadata. -/
structure EntrySpec where
  driver : String
  args : List (String × Val)
  metadata : List (String × Val)

/-- An intake `DataSource`: its own token `_tok`, a `name`, a driver spec and
a `metadata` dict. -/
structure DataSource where
  tok : String
  name : String
  driver : String
  args : List (String × Val)
  metadata : List (String × Val)

/-- Modelled from the spec: `DataSource._yaml()` is defined outside the shown
source; the spec treats it as the deterministic serialization of a source into
its entry record ("its own serialized entry record is copied into the index").
-/
def DataSource.yamlSpec (s : DataSource) : EntrySpec :=
  ⟨s.driver, s.args, s.metadata⟩

/-- A `CatalogEntry` as seen by `get_tok`: token `_tok` and `_metadata`. -/
structure CatalogEntry where
  tok : String
  metadata : List (String × Val)

/-- The possible shapes of the argument of `get_tok` / `remove` /
`backtrack`: a raw string, a catalog entry, a live source, or a value of any
other type. -/
inductive TokInput where
  | str (s : String)
  | entry (e : CatalogEntry)
  | source (s : DataSource)
  | other

/-- The Python exceptions the module can raise: `IndexError` (from
`get_tok`, the spec calls it `UnresolvableIdentity`), `KeyError` (missing
dict key, the spec calls it `KeyNotFound`), `IOError`/`OSError` (file system),
`TypeError`. -/
inductive PyErr where
  | indexError
  | keyError
  | ioError
  | typeError
  deriving DecidableEq

/-- The state of a `PersistStore`: the persistence root `pdir`, whether the
root directory exists, the `sources` mapping of the on-disk `cat.yaml`
(`none` when the file does not exist), the artifact subdirectories
(token to list of contained files), and the in-memory `_entries` mirror. -/
structure PersistState where
  pdir : String
  rootExists : Bool
  catFile : Option (List (String × EntrySpec))
  artifacts : List (String × List String)
  entries : List (String × DataSource)

/-- `posixpath.join` for the paths this module builds (a relative second
component; an absolute one replaces the first). -/
def posixJoin (a b : String) : String :=
  if b.startsWith "/" then b
  else if a.isEmpty then b
  else if a.endsWith "/" then a ++ b
  else a ++ "/" ++ b

namespace PersistStore

/-- `PersistStore.get_tok`: strings pass through; entries and sources yield
`metadata.get('original_tok', its own _tok)`; anything else raises
`IndexError`. -/
def get_tok : TokInput → Except PyErr Val
  | .str s => .ok (.vstr s)
  | .entry e => .ok ((dget e.metadata "original_tok").getD (.vstr e.tok))
  | .source s => .ok ((dget s.metadata "original_tok").getD (.vstr s.tok))
  | .other => .error .indexError

/-- `PersistStore.getdir`: `shutil.rmtree(subdir, ignore_errors=True)` then
`os.makedirs(subdir)` (which also creates `pdir` if missing), returning
`posixpath.join(pdir, source._tok)`.  File-system operations are modelled as
succeeding; the `except (IOError, OSError): pass` only matters for
permission-style failures outside this model. -/
def getdir (st : PersistState) (source : DataSource) :
    PersistState × String :=
  let subdir := posixJoin st.pdir source.tok
  ({ st with rootExists := true,
             artifacts := aset (adel st.artifacts source.tok) source.tok [] },
   subdir)

/-- `PersistStore.add`: read the on-disk file, set
`data['sources'][key] = source._yaml()['sources'][source.name]`, write the
whole mapping back, then `self._entries[key] = source`. -/
def add (st : PersistState) (key : String) (source : DataSource) :
    Except (PyErr × PersistState) PersistState :=
  match st.catFile with
  | none => .error (.ioError, st)
  | some data =>
      .ok { st with
              catFile := some (aset data key source.yamlSpec),
              entries := aset st.entries key source }

/-- `PersistStore.remove`: resolve the token via `get_tok`, re-read the
on-disk file, `del data['sources'][tok]` (raising `KeyError` if absent),
rewrite the file, optionally `shutil.rmtree` the artifact directory (any
`IOError`/`OSError` there is logged, not raised; `rmtreeOk = false` models
such a failure), then `self._entries.pop(tok)` (raising `KeyError` if the
mirror lacks the token).  The error carries the state at the raise point. -/
def remove (st : PersistState) (x : TokInput)
    (delfiles : Bool) (rmtreeOk : Bool) :
    Except (PyErr × PersistState) PersistState :=
  match get_tok x with
  | .error e => .error (e, st)
  | .ok tokV =>
      match st.catFile with
      | none => .error (.ioError, st)
      | some data =>
          match tokV with
          | .vstr tok =>
              match alookup data tok with
              | none => .error (.keyError, st)
              | some _ =>
                  -- the file is rewritten without the key, then the artifact
                  -- directory is deleted when that succeeds (a failure is
                  -- only logged), and only then is the mirror popped
                  let arts : List (String × List String) :=
                    if delfiles && rmtreeOk then adel st.artifacts tok
                    else st.artifacts
                  match alookup st.entries tok with
                  | none =>
                      .error (.keyError,
                        { st with catFile := some (adel data tok),
                                  artifacts := arts })
                  | some _ =>
                      .ok { st with catFile := some (adel data tok),
                                    artifacts := arts,
                                    entries := adel st.entries tok }
          | _ => .error (.keyError, st)

/-- `PersistStore.clear`: `shutil.rmtree(self.pdir)` — deletes the whole
persistence root (index file and artifact directories); raises if the root
does not exist; the in-memory `_entries` mirror is not touched. -/
def clear (st : PersistState) : Except (PyErr × PersistState) PersistState :=
  if st.rootExists then
    .ok { st with rootExists := false, catFile := none, artifacts := [] }
  else .error (.ioError, st)

/-- `PersistStore.backtrack`: resolve the key, fetch the persisted source
from the catalog (`self[key]()`), unpack
`cls, args, kwargs = s.metadata['original_source']`, rebuild the original via
`import_name(cls)(*args, **kwargs)` — modelled by the collaborator function
`importEnv` — then overwrite its `metadata` and `name` with
`original_metadata` and `original_name`. -/
def backtrack (importEnv : String → Val → Val → DataSource)
    (st : PersistState) (x : TokInput) : Except PyErr DataSource :=
  match get_tok x with
  | .error e => .error e
  | .ok keyV =>
      match keyV with
      | .vstr key =>
          match alookup st.entries key with
          | none => .error .keyError
          | some s =>
              match dget s.metadata "original_source" with
              | some (.vlist [.vstr cls, args, kwargs]) =>
                  let sout := importEnv cls args kwargs
                  match dget s.metadata "original_metadata",
                        dget s.metadata "original_name" with
                  | some (.vdict om), some (.vstr onm) =>
                      .ok { sout with metadata := om, name := onm }
                  | some _, some _ => .error .typeError
                  | _, _ => .error .keyError
              | some _ => .error .typeError
              | none => .error .keyError
      | _ => .error .keyError

/-- `PersistStore.needs_refresh`: `True` when `source._tok` is not in the
catalog; otherwise, when `metadata.get('ttl', None)` is truthy, fetch
`then = metadata['timestamp']` and return `True` iff
`metadata['ttl'] < then - now`; otherwise `False`.  `now` is `time.time()`.
-/
def needs_refresh (st : PersistState) (source : DataSource) (now : Int) :
    Except PyErr Bool :=
  match alookup st.entries source.tok with
  | none => .ok true
  | some s0 =>
      if (dgetD s0.metadata "ttl" .vnone).truthy then
        match dget s0.metadata "timestamp" with
        | none => .error .keyError
        | some thnV =>
            match thnV, dget s0.metadata "ttl" with
            | .vint thn, some (.vint ttl) => .ok (decide (ttl < thn - now))
            | _, _ => .error .typeError
      else .ok false

end PersistStore

/-- The process-wide singleton object held in `PersistStore._singleton[0]`:
an object identity plus the attributes `__init__` assigns (`pdir` and the
index-file path). -/
structure StoreObj where
  objId : Nat
  pdir : String
  path : String

namespace PersistStore

/-- One construction of `PersistStore(path)`: `__new__` returns the object in
`cls._singleton[0]`, allocating a fresh one (with identity `freshId`) only
when the slot is empty; then `__init__` runs on that object, setting
`pdir = make_path_posix(path or conf.get('persist_path'))` (Python `or`:
an empty/absent argument falls back to the configured default; `mpp` is the
collaborator `make_path_posix`) and `path = posixpath.join(pdir, 'cat.yaml')`.
Returns the new singleton slot and the constructed object. -/
def construct (mpp : String → String) (freshId : Nat)
    (sing : Option StoreObj) (pathArg : Option String)
    (confPersistPath : String) : Option StoreObj × StoreObj :=
  let o : StoreObj :=
    match sing with
    | some o => o
    | none => { objId := freshId, pdir := "", path := "" }
  let chosen : String :=
    match pathArg with
    | some p => if p.isEmpty then confPersistPath else p
    | none => confPersistPath
  let pdir := mpp chosen
  let o' : StoreObj := { o with pdir := pdir, path := posixJoin pdir "cat.yaml" }
  (some o', o')

/-- Serialize every source of the in-memory mirror, keeping keys. -/
def serAll (m : List (String × DataSource)) : List (String × EntrySpec) :=
  m.map (fun p => (p.1, p.2.yamlSpec))

/-- The on-disk index file and the in-memory mirror agree: the file exists
and its `sources` mapping is exactly the serialization of the mirror. -/
def agrees (st : PersistState) : Prop :=
  st.catFile = some (serAll st.entries)

end PersistStore

/-! ## Helper lemmas about the association-list dictionary operations -/

theorem alookup_aset_self {α : Type} (m : List (String × α)) (k : String)
    (v : α) : alookup (aset m k v) k = some v := by
  induction m with
  | nil => simp [aset, alookup, List.find?]
  | cons p t ih =>
      obtain ⟨k', v'⟩ := p
      by_cases h : k' == k
      · simp only [aset, h, if_true]
        have hk : k' = k := by simpa using h
        subst hk
        simp [alookup, List.find?]
      · simp only [aset, h, if_false]
        simp only [alookup, List.find?, h] at ih ⊢
        exact ih

theorem serAll_aset (m : List (String × DataSource)) (k : String)
    (s : DataSource) :
    PersistStore.serAll (aset m k s) =
      aset (PersistStore.serAll m) k s.yamlSpec := by
  induction m with
  | nil => simp [aset, PersistStore.serAll]
  | cons p t ih =>
      obtain ⟨k', v'⟩ := p
      by_cases h : k' == k
      · simp [aset, h, PersistStore.serAll]
      · simp [aset, h, PersistStore.serAll] at ih ⊢
        exact ih

theorem serAll_adel (m : List (String × DataSource)) (k : String) :
    PersistStore.serAll (adel m k) = adel (PersistStore.serAll m) k := by
  induction m with
  | nil => simp [adel, PersistStore.serAll]
  | cons p t ih =>
      obtain ⟨k', v'⟩ := p
      by_cases h : k' == k
      · simp [adel, h, PersistStore.serAll]
      · simp [adel, h, PersistStore.serAll] at ih ⊢
        exact ih

theorem alookup_serAll (m : List (String × DataSource)) (k : String) :
    alookup (PersistStore.serAll m) k =
      (alookup m k).map DataSource.yamlSpec := by
  induction m with
  | nil => simp [alookup, PersistStore.serAll]
  | cons p t ih =>
      obtain ⟨k', v'⟩ := p
      by_cases h : k' == k
      · simp [alookup, PersistStore.serAll, List.find?, h]
      · simp only [alookup, PersistStore.serAll, List.find?, h] at ih ⊢
        exact ih

theorem alookup_not_mem {α : Type} (m : List (String × α)) (k : String)
    (h : k ∉ m.map Prod.fst) : alookup m k = none := by
  induction m with
  | nil => simp [alookup]
  | cons p t ih =>
      obtain ⟨k', v'⟩ := p
      simp only [List.map_cons, List.mem_cons] at h
      push_neg at h
      have hne : ¬(k' == k) := by
        simp only [beq_iff_eq]
        exact fun hEq => h.1 hEq.symm
      simp only [alookup, List.find?, hne]
      exact ih h.2

theorem alookup_adel_self {α : Type} (m : List (String × α)) (k : String)
    (hnd : (m.map Prod.fst).Nodup) : alookup (adel m k) k = none := by
  induction m with
  | nil => simp [adel, alookup]
  | cons p t ih =>
      obtain ⟨k', v'⟩ := p
      simp only [List.map_cons, List.nodup_cons] at hnd
      by_cases h : k' == k
      · have hk : k' = k := by simpa using h
        subst hk
        simp only [adel, h, if_true]
        exact alookup_not_mem t k' hnd.1
      · simp only [adel, h, if_false]
        simp only [alookup, List.find?, h] at ih ⊢
        exact ih hnd.2

/-! ## Claim theorems -/

/-- C5: token resolution returns a string unchanged; for a catalog entry or
a live source it returns `metadata['original_tok']` when present and the
object's own token otherwise; any other input fails with the resolution
error (`IndexError`, the spec's `UnresolvableIdentity`). -/
theorem get_tok_resolution :
    (∀ s : String, PersistStore.get_tok (.str s) = .ok (.vstr s)) ∧
    (∀ (e : CatalogEntry) (v : Val),
        dget e.metadata "original_tok" = some v →
        PersistStore.get_tok (.entry e) = .ok v) ∧
    (∀ e : CatalogEntry,
        dget e.metadata "original_tok" = none →
        PersistStore.get_tok (.entry e) = .ok (.vstr e.tok)) ∧
    (∀ (s : DataSource) (v : Val),
        dget s.metadata "original_tok" = some v →
        PersistStore.get_tok (.source s) = .ok v) ∧
    (∀ s : DataSource,
        dget s.metadata "original_tok" = none →
        PersistStore.get_tok (.source s) = .ok (.vstr s.tok)) ∧
    PersistStore.get_tok .other = .error .indexError := by
  refine ⟨fun s => rfl, ?_, ?_, ?_, ?_, rfl⟩
  · intro e v h; simp [PersistStore.get_tok, h]
  · intro e h; simp [PersistStore.get_tok, h]
  · intro s v h; simp [PersistStore.get_tok, h]
  · intro s h; simp [PersistStore.get_tok, h]

/-- Witness for C5 at concrete inputs of each of the accepted shapes. -/
theorem get_tok_resolution_witness :
    PersistStore.get_tok (.str "abc") = .ok (.vstr "abc") ∧
    PersistStore.get_tok
        (.entry ⟨"e1", [("original_tok", .vstr "orig")]⟩) = .ok (.vstr "orig") ∧
    PersistStore.get_tok (.entry ⟨"e1", []⟩) = .ok (.vstr "e1") ∧
    PersistStore.get_tok
        (.source ⟨"s1", "n", "d", [], [("original_tok", .vstr "o2")]⟩) =
      .ok (.vstr "o2") ∧
    PersistStore.get_tok (.source ⟨"s1", "n", "d", [], []⟩) = .ok (.vstr "s1") ∧
    PersistStore.get_tok .other = .error .indexError :=
  ⟨get_tok_resolution.1 "abc",
   get_tok_resolution.2.1 ⟨"e1", [("original_tok", .vstr "orig")]⟩ _ rfl,
   get_tok_resolution.2.2.1 ⟨"e1", []⟩ rfl,
   get_tok_resolution.2.2.2.1 ⟨"s1", "n", "d", [], [("original_tok", .vstr "o2")]⟩ _ rfl,
   get_tok_resolution.2.2.2.2.1 ⟨"s1", "n", "d", [], []⟩ rfl,
   get_tok_resolution.2.2.2.2.2⟩

/-- C9: `needs_refresh` is `true` when the source's token is absent from the
index, and `false` — for every current time — when the token is present with
`ttl` absent or `None`. -/
theorem needs_refresh_absent_or_no_ttl :
    (∀ (st : PersistState) (src : DataSource) (now : Int),
        alookup st.entries src.tok = none →
        PersistStore.needs_refresh st src now = .ok true) ∧
    (∀ (st : PersistState) (src : DataSource) (now : Int) (s0 : DataSource),
        alookup st.entries src.tok = some s0 →
        dget s0.metadata "ttl" = none ∨ dget s0.metadata "ttl" = some .vnone →
        PersistStore.needs_refresh st src now = .ok false) := by
  constructor
  · intro st src now h
    simp [PersistStore.needs_refresh, h]
  · intro st src now s0 h httl
    rcases httl with h2 | h2 <;>
      simp [PersistStore.needs_refresh, h, dgetD, h2, Val.truthy]

/-- Witness for C9: an empty store, a store whose entry has no `ttl` key,
and a store whose entry has `ttl: None`. -/
theorem needs_refresh_absent_or_no_ttl_witness :
    PersistStore.needs_refresh ⟨"/p", true, some [], [], []⟩
      ⟨"t", "n", "d", [], []⟩ 0 = .ok true ∧
    PersistStore.needs_refresh
      ⟨"/p", true, some [], [], [("t", ⟨"t", "n", "d", [], []⟩)]⟩
      ⟨"t", "n", "d", [], []⟩ 7 = .ok false ∧
    PersistStore.needs_refresh
      ⟨"/p", true, some [], [],
        [("t", ⟨"t", "n", "d", [], [("ttl", .vnone)]⟩)]⟩
      ⟨"t", "n", "d", [], []⟩ 7 = .ok false :=
  ⟨needs_refresh_absent_or_no_ttl.1 _ _ 0 rfl,
   needs_refresh_absent_or_no_ttl.2 _ _ 7 _ rfl (Or.inl rfl),
   needs_refresh_absent_or_no_ttl.2 _ _ 7 _ rfl (Or.inr rfl)⟩

/-- A persisted source with `ttl = 10` and `timestamp = 100`. -/
def ttlSource : DataSource :=
  ⟨"tok1", "n", "d", [], [("ttl", .vint 10), ("timestamp", .vint 100)]⟩

/-- A store holding `ttlSource` under its token. -/
def ttlStore : PersistState :=
  ⟨"/p", true, some [("tok1", ttlSource.yamlSpec)], [("tok1", [])],
   [("tok1", ttlSource)]⟩

/-- C1: with `ttl = 10` and `timestamp = 100`, the code returns `false` both
at `now = 105` (elapsed 5, as the claim says) and at `now = 115` (elapsed 15,
where the claim — and the function's own docstring — require `true`): the
comparison `ttl < timestamp - now` is never true for a positive ttl once
`now ≥ timestamp`. -/
theorem needs_refresh_never_stale_at_claim_inputs :
    PersistStore.needs_refresh ttlStore ttlSource 105 = .ok false ∧
    PersistStore.needs_refresh ttlStore ttlSource 115 = .ok false :=
  ⟨rfl, rfl⟩

/-- C8: `getdir` is idempotent — both the first and the second call for the
same token return the path `pdir/token` and leave an empty artifact
directory for that token, discarding pre-existing contents; no error is
raised. -/
theorem getdir_idempotent (st : PersistState) (src : DataSource) :
    (PersistStore.getdir st src).2 = posixJoin st.pdir src.tok ∧
    (PersistStore.getdir (PersistStore.getdir st src).1 src).2 =
      (PersistStore.getdir st src).2 ∧
    alookup (PersistStore.getdir st src).1.artifacts src.tok = some [] ∧
    alookup (PersistStore.getdir (PersistStore.getdir st src).1 src).1.artifacts
        src.tok = some [] := by
  refine ⟨rfl, rfl, ?_, ?_⟩ <;>
    simp [PersistStore.getdir, alookup_aset_self]

/-- C10: constructing `PersistStore` again returns the same singleton object
(identity preserved, slot updated to it), yet `__init__` runs again and
re-points `pdir` to `make_path_posix(path or configured default)` and the
index path to `pdir/cat.yaml`, regardless of the previous values. -/
theorem construct_singleton_reinit (mpp : String → String) (fid : Nat)
    (o : StoreObj) (pathArg : Option String) (conf : String) :
    (PersistStore.construct mpp fid (some o) pathArg conf).1 =
      some (PersistStore.construct mpp fid (some o) pathArg conf).2 ∧
    (PersistStore.construct mpp fid (some o) pathArg conf).2.objId = o.objId ∧
    (PersistStore.construct mpp fid (some o) pathArg conf).2.pdir =
      mpp (match pathArg with
           | some p => if p.isEmpty then conf else p
           | none => conf) ∧
    (PersistStore.construct mpp fid (some o) pathArg conf).2.path =
      posixJoin ((PersistStore.construct mpp fid (some o) pathArg conf).2.pdir)
        "cat.yaml" :=
  ⟨rfl, rfl, rfl, rfl⟩

/-- C4: for a persisted entry carrying `original_source = (cls, args,
kwargs)`, `original_metadata` and `original_name`, `backtrack` returns the
object built by instantiating the class named `cls` on `args`/`kwargs`, with
its metadata and name overwritten by the stored originals. -/
theorem backtrack_restores_original (env : String → Val → Val → DataSource)
    (st : PersistState) (tok : String) (s : DataSource)
    (cls : String) (argsV kwargsV : Val)
    (om : List (String × Val)) (onm : String)
    (h1 : alookup st.entries tok = some s)
    (h2 : dget s.metadata "original_source" =
            some (.vlist [.vstr cls, argsV, kwargsV]))
    (h3 : dget s.metadata "original_metadata" = some (.vdict om))
    (h4 : dget s.metadata "original_name" = some (.vstr onm)) :
    PersistStore.backtrack env st (.str tok) =
      .ok { env cls argsV kwargsV with metadata := om, name := onm } := by
  simp [PersistStore.backtrack, PersistStore.get_tok, h1, h2, h3, h4]

/-- A collaborator modelling `import_name(cls)(*args, **kwargs)`: the
constructed source records which class was instantiated. -/
def envW : String → Val → Val → DataSource :=
  fun cls args kwargs =>
    ⟨"newtok", "defaultname", cls, [],
     [("constructed_from", .vlist [args, kwargs])]⟩

/-- A persisted copy whose metadata remembers its original source. -/
def persistedW : DataSource :=
  ⟨"ptok", "pname", "yaml_file_cat", [],
   [("original_source",
       .vlist [.vstr "pkg.Cls", .vlist [.vint 1], .vdict [("a", .vint 2)]]),
    ("original_metadata", .vdict [("k", .vint 1)]),
    ("original_name", .vstr "origname"),
    ("original_tok", .vstr "orig")]⟩

/-- A store holding `persistedW` under the original token `"orig"`. -/
def stW : PersistState :=
  ⟨"/p", true, some [("orig", persistedW.yamlSpec)], [("orig", [])],
   [("orig", persistedW)]⟩

/-- Witness for C4 on the concrete store `stW`. -/
theorem backtrack_restores_original_witness :
    PersistStore.backtrack envW stW (.str "orig") =
      .ok { envW "pkg.Cls" (.vlist [.vint 1]) (.vdict [("a", .vint 2)]) with
              metadata := [("k", .vint 1)], name := "origname" } :=
  backtrack_restores_original envW stW "orig" persistedW "pkg.Cls"
    (.vlist [.vint 1]) (.vdict [("a", .vint 2)]) [("k", .vint 1)] "origname"
    rfl rfl rfl rfl

/-- C6: removing a token absent from the on-disk index data raises
`KeyError` (the spec's `KeyNotFound`) and leaves the whole state — index
file, artifact directories and in-memory mirror — unchanged. -/
theorem remove_absent_token_fails_unchanged (st : PersistState)
    (data : List (String × EntrySpec)) (tok : String)
    (delfiles rmtreeOk : Bool)
    (hfile : st.catFile = some data)
    (habs : alookup data tok = none) :
    PersistStore.remove st (.str tok) delfiles rmtreeOk =
      .error (.keyError, st) := by
  simp [PersistStore.remove, PersistStore.get_tok, hfile, habs]

/-- Witness for C6: removing the unknown token `"ghost"` from `stW`. -/
theorem remove_absent_token_fails_unchanged_witness :
    PersistStore.remove stW (.str "ghost") true true =
      .error (.keyError, stW) :=
  remove_absent_token_fails_unchanged stW [("orig", persistedW.yamlSpec)]
    "ghost" true true rfl rfl

/-- C7: for a token present on disk and in the mirror, `remove` with
`delfiles = true` succeeds even when the artifact-directory deletion fails
(`rmtreeOk = false`, the failure is only logged): the entry is gone from the
rewritten file and from the mirror, and the artifact directories are left as
they were. -/
theorem remove_succeeds_despite_rmtree_failure (st : PersistState)
    (data : List (String × EntrySpec)) (tok : String)
    (spec : EntrySpec) (s : DataSource)
    (hfile : st.catFile = some data)
    (hdisk : alookup data tok = some spec)
    (hmem : alookup st.entries tok = some s)
    (hnd1 : (data.map Prod.fst).Nodup)
    (hnd2 : (st.entries.map Prod.fst).Nodup) :
    PersistStore.remove st (.str tok) true false =
      .ok { st with catFile := some (adel data tok),
                    entries := adel st.entries tok } ∧
    alookup (adel data tok) tok = none ∧
    alookup (adel st.entries tok) tok = none := by
  refine ⟨?_, alookup_adel_self _ _ hnd1, alookup_adel_self _ _ hnd2⟩
  simp [PersistStore.remove, PersistStore.get_tok, hfile, hdisk, hmem]

/-- Witness for C7: removing `"orig"` from `stW` with a failing artifact
deletion. -/
theorem remove_succeeds_despite_rmtree_failure_witness :
    PersistStore.remove stW (.str "orig") true false =
      .ok { stW with catFile := some (adel [("orig", persistedW.yamlSpec)] "orig"),
                     entries := adel stW.entries "orig" } ∧
    alookup (adel [("orig", persistedW.yamlSpec)] "orig") "orig" = none ∧
    alookup (adel stW.entries "orig") "orig" = none :=
  remove_succeeds_despite_rmtree_failure stW [("orig", persistedW.yamlSpec)]
    "orig" persistedW.yamlSpec persistedW rfl rfl rfl (by decide) (by decide)

/-- C3 (amended): `add` re-reads the on-disk index file: the mapping it
writes back is the *current on-disk* mapping updated with the new entry, and
the mirror gains the new source; the written file therefore depends on the
on-disk contents, not only on the in-memory mapping. -/
theorem add_rereads_disk (st : PersistState) (k : String) (s : DataSource)
    (data : List (String × EntrySpec))
    (hfile : st.catFile = some data) :
    PersistStore.add st k s =
      .ok { st with catFile := some (aset data k s.yamlSpec),
                    entries := aset st.entries k s } := by
  simp [PersistStore.add, hfile]

/-- Witness for C3's amended statement on a concrete store. -/
theorem add_rereads_disk_witness :
    PersistStore.add stW "t2" ttlSource =
      .ok { stW with
              catFile := some (aset [("orig", persistedW.yamlSpec)] "t2"
                                 ttlSource.yamlSpec),
              entries := aset stW.entries "t2" ttlSource } :=
  add_rereads_disk stW "t2" ttlSource [("orig", persistedW.yamlSpec)] rfl

/-- A store whose index file is empty. -/
def stDiskA : PersistState := ⟨"/p", true, some [], [], []⟩

/-- A store with the same (empty) in-memory mirror as `stDiskA` but whose
index file already holds a foreign entry. -/
def stDiskB : PersistState :=
  ⟨"/p", true, some [("other", ⟨"csv", [], []⟩)], [], []⟩

/-- Counterexample to C3 as stated: two `add` runs with identical in-memory
mappings, token and source, but different on-disk file contents, write
different mappings to the index file. -/
theorem add_output_depends_on_disk :
    stDiskA.entries = stDiskB.entries ∧
    (PersistStore.add stDiskA "t1" ttlSource).map PersistState.catFile ≠
      (PersistStore.add stDiskB "t1" ttlSource).map PersistState.catFile := by
  refine ⟨rfl, ?_⟩
  intro h
  have h2 : (1 : Nat) = 2 :=
    congrArg
      (fun e : Except (PyErr × PersistState)
                 (Option (List (String × EntrySpec))) =>
        match e with
        | .ok (some l) => l.length
        | _ => 0) h
  exact absurd h2 (by decide)

/-- C2 (amended): `add` and `remove` preserve the agreement between the
on-disk index file and the in-memory mirror; `clear`, however, deletes the
on-disk root (the index file ceases to exist) while leaving the in-memory
mirror exactly as it was. -/
theorem mutation_preserves_agreement :
    (∀ (st st' : PersistState) (k : String) (s : DataSource),
        PersistStore.agrees st → PersistStore.add st k s = .ok st' →
        PersistStore.agrees st') ∧
    (∀ (st st' : PersistState) (x : TokInput) (df rk : Bool),
        PersistStore.agrees st → PersistStore.remove st x df rk = .ok st' →
        PersistStore.agrees st') ∧
    (∀ (st st' : PersistState),
        PersistStore.clear st = .ok st' →
        st'.catFile = none ∧ st'.entries = st.entries) := by
  refine ⟨?_, ?_, ?_⟩
  · intro st st' k s hag hadd
    rw [PersistStore.agrees] at hag
    simp only [PersistStore.add, hag, Except.ok.injEq] at hadd
    subst hadd
    rw [PersistStore.agrees]
    simp [serAll_aset]
  · intro st st' x df rk hag hrem
    rw [PersistStore.agrees] at hag
    unfold PersistStore.remove at hrem
    split at hrem
    · simp at hrem
    next tokV hgt =>
      split at hrem
      · simp at hrem
      next data hcf =>
        rw [hag] at hcf
        injection hcf with hdata
        subst hdata
        split at hrem
        swap
        · simp at hrem
        next tok =>
          split at hrem
          · simp at hrem
          next spec hlk =>
            rw [alookup_serAll] at hlk
            cases hme : alookup st.entries tok with
            | none => rw [hme] at hlk; cases hlk
            | some s1 =>
                simp only [hme, Except.ok.injEq] at hrem
                subst hrem
                rw [PersistStore.agrees]
                simp [serAll_adel]
  · intro st st' hcl
    unfold PersistStore.clear at hcl
    split at hcl
    · simp only [Except.ok.injEq] at hcl
      subst hcl
      exact ⟨rfl, rfl⟩
    · simp at hcl

/-- Witness for C2's amended statement: agreement after a concrete `add`. -/
theorem mutation_preserves_agreement_witness :
    PersistStore.agrees
      ⟨"/p", true, some [("t1", ttlSource.yamlSpec)], [], [("t1", ttlSource)]⟩ :=
  mutation_preserves_agreement.1 stDiskA
    ⟨"/p", true, some [("t1", ttlSource.yamlSpec)], [], [("t1", ttlSource)]⟩
    "t1" ttlSource rfl rfl

/-- The state left by `clear` on `stW`: the root and its index file are gone,
but the in-memory mirror still holds the entry. -/
def clearedW : PersistState := ⟨"/p", false, none, [], [("orig", persistedW)]⟩

/-- Counterexample to C2 as stated: from a store whose file and mirror agree,
a successful `clear` leaves the index file nonexistent while the mirror is
still nonempty, so disk and mirror do not agree (and are not both empty). -/
theorem clear_breaks_agreement :
    PersistStore.agrees stW ∧
    PersistStore.clear stW = .ok clearedW ∧
    ¬ PersistStore.agrees clearedW ∧
    clearedW.entries ≠ [] :=
  ⟨rfl, rfl, fun h => Option.noConfusion h, fun h => List.noConfusion h⟩
